import Mathlib

set_option linter.unusedVariables false

/-!
Shallow embedding of the motion-control core of librfs: the PCA9685 PWM
controller driver (`src/pca9685.hpp`), the per-channel PWM handle
(`Pca9685Pwm`), the servo wrapper (`src/servo.hpp`) and the kinematic chain
(`src/kinematics.hpp`).

Modelling conventions:
* The I2C bus is modelled fault-free: a register file `Nat → Nat` (byte per
  register address) plus an explicit trace of every bus transaction issued.
  `expected<T, Error>` becomes `Except Error T`; since the modelled bus never
  fails, the only `Except.error` results are the driver's own validation
  errors, which in the source are raised before any bus transaction.
* C++ `float` fractions, frequencies and angles are modelled as `ℚ`.  Every
  claim settled below only exercises values (1/2, 3/4, 1/10, 50, 25e6, ...)
  at which the single-precision computations of the source are exact or
  truncate to the same integer tick, so the rational model coincides with
  the float computation at every evaluated point.
* `roundf` (round half away from zero) is modelled exactly on `ℚ`.
* Trigonometric functions and the real-valued `normalize`/`acos`/`distance`
  of glm are not representable in `ℚ`; the kinematics embedding takes them
  as explicit function parameters, so every theorem about the loop structure
  holds for the actual single-precision functions in particular.
-/

namespace Rfs

/-- POSIX error number used by the driver for validation failures. -/
def EINVAL : Nat := 22

/-- POSIX error number returned by a channel handle whose driver is gone. -/
def ENODEV : Nat := 19

/-- Embedding of `rfs::Error` (`src/error.hpp`): an errno plus an optional
detail string. -/
structure Error where
  code : Nat
  detail : Option String
deriving DecidableEq, Repr

/-- One bus transaction, as issued by the private I2C helpers of `Pca9685`. -/
inductive BusOp where
  | readReg (reg : Nat)
  | writeReg (reg : Nat) (value : Nat)
  | readBlk (reg : Nat) (size : Nat)
  | writeBlk (reg : Nat) (data : List Nat)
deriving DecidableEq, Repr

/-- The modelled hardware side of a `Pca9685`: the chip register file plus
the trace of bus transactions issued so far. -/
structure Bus where
  regs : Nat → Nat
  trace : List BusOp

namespace Pca9685

/-- `Pca9685::ALL_CHANNELS` (the broadcast sentinel, chosen so that
`61 * 4 + 6 = 250`, the ALL_LED register). -/
def ALL_CHANNELS : Nat := 61

def MODE1_RESTART_MASK : Nat := 0x80
def MODE1_EXTCLK_MASK : Nat := 0x40
def MODE1_AI_MASK : Nat := 0x20
def MODE1_SLEEP_MASK : Nat := 0x10
def MODE1_SUB1_MASK : Nat := 0x08
def MODE1_SUB2_MASK : Nat := 0x04
def MODE1_SUB3_MASK : Nat := 0x02
def MODE1_ALLCALL_MASK : Nat := 0x01
def MODE2_INVRT_MASK : Nat := 0x10
def MODE2_OCH_MASK : Nat := 0x08
def MODE2_OUTDRV_MASK : Nat := 0x04
def MODE2_OUTNE_MASK : Nat := 0x03
def LED_OFF_MASK : Nat := 0x10
def LED_ON_MASK : Nat := 0x10

def MODE1_REGISTER : Nat := 0
def MODE2_REGISTER : Nat := 1
def SUB1_REGISTER : Nat := 2
def SUB2_REGISTER : Nat := 3
def SUB3_REGISTER : Nat := 4
/-- `ALLCALL_REGISTER` as declared in the source: it is `4`, the same value
as `SUB3_REGISTER`. -/
def ALLCALL_REGISTER : Nat := 4
def LED0_REGISTER : Nat := 6
def ALL_LED_REGISTER : Nat := 250
def PRESCALE_REGISTER : Nat := 254

def CHANNELS_COUNT : Nat := 16
def NUM_REGISTERS_PER_CHANNEL : Nat := 4
def CHANNELS_REGISTERS_OFFSET : Nat := 6
def COUNTER_TICKS : Nat := 4096
def INTERNAL_CLOCK_FREQUENCY : ℚ := 25000000
def MIN_PRESCALE : Nat := 3
def MAX_PRESCALE : Nat := 255

/-- `Pca9685::channel_exists`. -/
def channel_exists (channel : Nat) : Bool :=
  channel < CHANNELS_COUNT || channel == ALL_CHANNELS

/-- `Pca9685::read_register`: one-byte read (`i2c_smbus_read_byte_data`
masked with `0xff`). -/
def read_register (b : Bus) (reg : Nat) : Nat × Bus :=
  (b.regs reg &&& 0xff, { b with trace := b.trace ++ [BusOp.readReg reg] })

/-- `Pca9685::write_register`: one-byte write
(`i2c_smbus_write_byte_data`). -/
def write_register (b : Bus) (reg value : Nat) : Bus :=
  { regs := fun i => if i = reg then value else b.regs i,
    trace := b.trace ++ [BusOp.writeReg reg value] }

/-- `Pca9685::read_block`: multi-byte read starting at `reg`
(auto-increment). -/
def read_block (b : Bus) (reg size : Nat) : List Nat × Bus :=
  ((List.range size).map (fun i => b.regs (reg + i)),
   { b with trace := b.trace ++ [BusOp.readBlk reg size] })

/-- `Pca9685::write_block`: multi-byte write starting at `reg`
(auto-increment). -/
def write_block (b : Bus) (reg : Nat) (data : List Nat) : Bus :=
  { regs := fun i =>
      if reg ≤ i ∧ i < reg + data.length then data.getD (i - reg) 0 else b.regs i,
    trace := b.trace ++ [BusOp.writeBlk reg data] }

/-- `Pca9685::get_bool`: read a register and test a mask. -/
def get_bool (b : Bus) (reg mask : Nat) : Bool × Bus :=
  let r := read_register b reg
  (r.1 &&& mask != 0, r.2)

/-- `Pca9685::set_bool`: masked read-modify-write of one bit field
(`value ? read | mask : read & ~mask`). -/
def set_bool (b : Bus) (reg mask : Nat) (value : Bool) : Bus :=
  let r := read_register b reg
  write_register r.2 reg (if value then r.1 ||| mask else r.1 &&& (0xff ^^^ mask))

/-- `Pca9685::set_bits`, exactly as written in the source: it reads the
register, then writes `value` directly — the `mask` parameter and the value
read back are never used. -/
def set_bits (b : Bus) (reg mask value : Nat) : Bus :=
  let r := read_register b reg
  write_register r.2 reg value

/-- `Pca9685::sleep`. -/
def sleep (b : Bus) : Bus :=
  set_bool b MODE1_REGISTER MODE1_SLEEP_MASK true

/-- `Pca9685::needs_restart`. -/
def needs_restart (b : Bus) : Bool × Bus :=
  get_bool b MODE1_REGISTER MODE1_RESTART_MASK

/-- `Pca9685::restart`: read the restart flag, clear the sleep bit, and if
the flag was set, set the restart bit to resume output. -/
def restart (b : Bus) : Bool × Bus :=
  let rn := needs_restart b
  let b1 := set_bool rn.2 MODE1_REGISTER MODE1_SLEEP_MASK false
  (rn.1, if rn.1 then set_bool b1 MODE1_REGISTER MODE1_RESTART_MASK true else b1)

/-- `roundf` of C, on `ℚ`: round to nearest, halves away from zero. -/
def roundf (x : ℚ) : ℤ :=
  if 0 ≤ x then ⌊x + 1 / 2⌋ else -⌊-x + 1 / 2⌋

/-- The prescale value `set_frequency` computes:
`roundf(clock_frequency / (COUNTER_TICKS * frequency)) - 1`, as an exact
integer.  (In the source this lives in a `uint32_t`; a negative value would
wrap to a huge one, and both sides of the wrap fall outside `[3, 255]`, so
the range check below rejects exactly the same calls.) -/
def prescale_of (frequency clock_frequency : ℚ) : ℤ :=
  roundf (clock_frequency / (COUNTER_TICKS * frequency)) - 1

/-- `Pca9685::set_frequency`: validate, compute the prescale, then
sleep → write prescale → restart. -/
def set_frequency (b : Bus) (frequency : ℚ)
    (clock_frequency : ℚ := INTERNAL_CLOCK_FREQUENCY) : Except Error Unit × Bus :=
  if frequency ≤ 0 then (Except.error ⟨EINVAL, some "frequency"⟩, b)
  else if clock_frequency < 0 then (Except.error ⟨EINVAL, some "clock_frequency"⟩, b)
  else
    let p : ℤ := prescale_of frequency clock_frequency
    if p < (MIN_PRESCALE : ℤ) ∨ (MAX_PRESCALE : ℤ) < p then
      (Except.error ⟨EINVAL, some "prescale value out of range"⟩, b)
    else
      let b1 := sleep b
      let b2 := write_register b1 PRESCALE_REGISTER p.toNat
      let r := restart b2
      (Except.ok (), r.2)

/-- Quantization used by `set_on_off_times`:
`min(uint16(fraction * 4096), 4095)`.  The fraction has been validated to
`[0, 1]` before this point, so the float-to-integer cast truncates toward
zero, i.e. takes the floor. -/
def tick_of (t : ℚ) : Nat :=
  min (Int.toNat ⌊t * (COUNTER_TICKS : ℚ)⌋) (COUNTER_TICKS - 1)

/-- `Pca9685::set_on_off_times`: validate channel and both fractions,
quantize, reject equal tick counts, then write the 4-byte block. -/
def set_on_off_times (b : Bus) (channel : Nat) (on_time off_time : ℚ) :
    Except Error Unit × Bus :=
  if ¬ channel_exists channel then (Except.error ⟨EINVAL, some "channel"⟩, b)
  else if on_time < 0 ∨ 1 < on_time then (Except.error ⟨EINVAL, some "on_time"⟩, b)
  else if off_time < 0 ∨ 1 < off_time then (Except.error ⟨EINVAL, some "off_time"⟩, b)
  else
    let on_time_int := tick_of on_time
    let off_time_int := tick_of off_time
    if on_time_int = off_time_int then
      (Except.error ⟨EINVAL, some "on_time and off_time must have different values"⟩, b)
    else
      let data : List Nat :=
        [on_time_int &&& 0xff, (on_time_int >>> 8) &&& 0x0f,
         off_time_int &&& 0xff, (off_time_int >>> 8) &&& 0x0f]
      let reg := channel * NUM_REGISTERS_PER_CHANNEL + CHANNELS_REGISTERS_OFFSET
      (Except.ok (), write_block b reg data)

/-- Embedding of `Pca9685OnOffTimes`.  The source names the two fraction
fields `on` and `off`; `on` is unavailable as a field name here, so they are
called `on_time` and `off_time`. -/
structure OnOffTimes where
  on_time : ℚ
  off_time : ℚ
  always_on : Bool
  always_off : Bool
deriving DecidableEq, Repr

/-- `Pca9685::on_off_times`: read the 4-byte block and unpack the two
12-bit tick counts and the two flag bits. -/
def on_off_times (b : Bus) (channel : Nat) : Except Error OnOffTimes × Bus :=
  if ¬ channel_exists channel then (Except.error ⟨EINVAL, some "channel"⟩, b)
  else
    let reg := channel * NUM_REGISTERS_PER_CHANNEL + CHANNELS_REGISTERS_OFFSET
    let r := read_block b reg NUM_REGISTERS_PER_CHANNEL
    let d := r.1
    let on_int := ((d.getD 1 0 &&& 0x0f) <<< 8) ||| d.getD 0 0
    let off_int := ((d.getD 3 0 &&& 0x0f) <<< 8) ||| d.getD 2 0
    (Except.ok
      { on_time := (on_int : ℚ) / (COUNTER_TICKS : ℚ),
        off_time := (off_int : ℚ) / (COUNTER_TICKS : ℚ),
        always_on := d.getD 1 0 &&& LED_ON_MASK != 0,
        always_off := d.getD 3 0 &&& LED_OFF_MASK != 0 }, r.2)

/-- `Pca9685::set_always_off`: masked read-modify-write of the channel's
fourth register. -/
def set_always_off (b : Bus) (channel : Nat) (enabled : Bool) :
    Except Error Unit × Bus :=
  if ¬ channel_exists channel then (Except.error ⟨EINVAL, none⟩, b)
  else
    let reg := channel * NUM_REGISTERS_PER_CHANNEL + CHANNELS_REGISTERS_OFFSET + 3
    (Except.ok (), set_bool b reg LED_OFF_MASK enabled)

/-- Embedding of `Pca9685OutputDisabledMode`. -/
inductive OutputDisabledMode where
  | Low
  | Driver
  | HighImpedance
deriving DecidableEq, Repr

/-- The `static_cast<uint8_t>` of the enum value. -/
def OutputDisabledMode.val : OutputDisabledMode → Nat
  | .Low => 0
  | .Driver => 1
  | .HighImpedance => 2

/-- `Pca9685::set_output_disabled_mode`: forwards to `set_bits` on the
MODE2 register with mask `MODE2_OUTNE_MASK`. -/
def set_output_disabled_mode (b : Bus) (value : OutputDisabledMode) : Bus :=
  set_bits b MODE2_REGISTER MODE2_OUTNE_MASK value.val

/-- `Pca9685::set_all_call_address`: write `address & 0xfe` to
`ALLCALL_REGISTER`. -/
def set_all_call_address (b : Bus) (address : Nat) : Bus :=
  write_register b ALLCALL_REGISTER (address &&& 0xfe)

/-- `Pca9685::all_call_address`: read `ALLCALL_REGISTER`. -/
def all_call_address (b : Bus) : Nat × Bus :=
  read_register b ALLCALL_REGISTER

/-- `Pca9685::set_subaddress3`: write `address & 0xfe` to `SUB3_REGISTER`. -/
def set_subaddress3 (b : Bus) (address : Nat) : Bus :=
  write_register b SUB3_REGISTER (address &&& 0xfe)

/-- `Pca9685::subaddress3`: read `SUB3_REGISTER`. -/
def subaddress3 (b : Bus) : Nat × Bus :=
  read_register b SUB3_REGISTER

end Pca9685

/-- Embedding of the state of a `Pca9685Pwm` channel handle
(`src/pca9685.hpp`): the bound channel index, the stored phase and duty
cycle, and whether the weak reference to the owning driver still resolves
(`controller.lock()` succeeds). -/
structure Pca9685Pwm where
  channel : Nat
  phase : ℚ
  duty_cycle : ℚ
  live : Bool

namespace Pca9685Pwm

/-- `Pca9685Pwm::set_duty_cycle`: store the duty cycle, then forward
`set_on_off_times(channel, phase, phase + duty_cycle)` to the driver if it
is still alive, else fail with `ENODEV`. -/
def set_duty_cycle (h : Pca9685Pwm) (b : Bus) (duty_cycle : ℚ) :
    Except Error Unit × Pca9685Pwm × Bus :=
  let h2 : Pca9685Pwm := { h with duty_cycle := duty_cycle }
  if h.live then
    let r := Pca9685.set_on_off_times b h.channel h.phase (h.phase + duty_cycle)
    (r.1, h2, r.2)
  else
    (Except.error ⟨ENODEV, none⟩, h2, b)

/-- `Pca9685Pwm::set_frequency`: the source body is `return {};` — a no-op
that touches neither the handle nor the driver nor the bus. -/
def set_frequency (h : Pca9685Pwm) (b : Bus) (frequency : ℚ) :
    Except Error Unit × Pca9685Pwm × Bus :=
  (Except.ok (), h, b)

end Pca9685Pwm

/-- Embedding of `rfs::Servo` (`src/servo.hpp`) owning a `Pca9685Pwm`
channel as its `Pwm` driver (the instantiation the claims are about). -/
structure Servo where
  driver : Pca9685Pwm
  half_angle_duty_cycle : ℚ
  offset : ℚ

namespace Servo

/-- `Servo::SERVO_FREQUENCY` (50 Hz). -/
def SERVO_FREQUENCY : ℚ := 50

/-- `Servo::init`: forwards `set_frequency(SERVO_FREQUENCY)` to the owned
`Pwm` driver. -/
def init (s : Servo) (b : Bus) : Except Error Unit × Servo × Bus :=
  let r := s.driver.set_frequency b SERVO_FREQUENCY
  (r.1, { s with driver := r.2.1 }, r.2.2)

end Servo

/-! ## Kinematics (`src/kinematics.hpp`)

glm vectors and matrices over `ℚ`.  The source stores 4×4 matrices
column-major; the literals below are written row-wise, so the source
literal `Z{{c,s,0,0},{-s,c,0,0},{0,0,1,0},{0,0,d,1}}` (a list of columns)
appears here with rows `(c,-s,0,0)`, `(s,c,0,0)`, `(0,0,1,d)`,
`(0,0,0,1)`. -/

/-- glm `vec3` over `ℚ`. -/
structure Vec3 where
  x : ℚ
  y : ℚ
  z : ℚ
deriving DecidableEq, Repr

instance : Inhabited Vec3 := ⟨⟨0, 0, 0⟩⟩

/-- Vector difference, as used for `ee_pos - joint.position`. -/
def Vec3.sub (a b : Vec3) : Vec3 :=
  ⟨a.x - b.x, a.y - b.y, a.z - b.z⟩

/-- glm `cross`. -/
def Vec3.cross (a b : Vec3) : Vec3 :=
  ⟨a.y * b.z - a.z * b.y, a.z * b.x - a.x * b.z, a.x * b.y - a.y * b.x⟩

/-- glm `mat4` over `ℚ`, written with row-column indices `mRC`. -/
structure Mat4 where
  m00 : ℚ
  m01 : ℚ
  m02 : ℚ
  m03 : ℚ
  m10 : ℚ
  m11 : ℚ
  m12 : ℚ
  m13 : ℚ
  m20 : ℚ
  m21 : ℚ
  m22 : ℚ
  m23 : ℚ
  m30 : ℚ
  m31 : ℚ
  m32 : ℚ
  m33 : ℚ
deriving DecidableEq, Repr

/-- Matrix product. -/
def Mat4.mul (a b : Mat4) : Mat4 where
  m00 := a.m00 * b.m00 + a.m01 * b.m10 + a.m02 * b.m20 + a.m03 * b.m30
  m01 := a.m00 * b.m01 + a.m01 * b.m11 + a.m02 * b.m21 + a.m03 * b.m31
  m02 := a.m00 * b.m02 + a.m01 * b.m12 + a.m02 * b.m22 + a.m03 * b.m32
  m03 := a.m00 * b.m03 + a.m01 * b.m13 + a.m02 * b.m23 + a.m03 * b.m33
  m10 := a.m10 * b.m00 + a.m11 * b.m10 + a.m12 * b.m20 + a.m13 * b.m30
  m11 := a.m10 * b.m01 + a.m11 * b.m11 + a.m12 * b.m21 + a.m13 * b.m31
  m12 := a.m10 * b.m02 + a.m11 * b.m12 + a.m12 * b.m22 + a.m13 * b.m32
  m13 := a.m10 * b.m03 + a.m11 * b.m13 + a.m12 * b.m23 + a.m13 * b.m33
  m20 := a.m20 * b.m00 + a.m21 * b.m10 + a.m22 * b.m20 + a.m23 * b.m30
  m21 := a.m20 * b.m01 + a.m21 * b.m11 + a.m22 * b.m21 + a.m23 * b.m31
  m22 := a.m20 * b.m02 + a.m21 * b.m12 + a.m22 * b.m22 + a.m23 * b.m32
  m23 := a.m20 * b.m03 + a.m21 * b.m13 + a.m22 * b.m23 + a.m23 * b.m33
  m30 := a.m30 * b.m00 + a.m31 * b.m10 + a.m32 * b.m20 + a.m33 * b.m30
  m31 := a.m30 * b.m01 + a.m31 * b.m11 + a.m32 * b.m21 + a.m33 * b.m31
  m32 := a.m30 * b.m02 + a.m31 * b.m12 + a.m32 * b.m22 + a.m33 * b.m32
  m33 := a.m30 * b.m03 + a.m31 * b.m13 + a.m32 * b.m23 + a.m33 * b.m33

/-- The identity, `mat4 T(1.0)`. -/
def Mat4.id : Mat4 :=
  ⟨1, 0, 0, 0, 0, 1, 0, 0, 0, 0, 1, 0, 0, 0, 0, 1⟩

/-- The joint transform `Z` of `forward_kinematics`: rotation about z by the
joint angle (with `c = cos angle`, `s = sin angle`) plus translation `d`
along z. -/
def Zmat (c s d : ℚ) : Mat4 :=
  ⟨c, -s, 0, 0, s, c, 0, 0, 0, 0, 1, d, 0, 0, 0, 1⟩

/-- The link transform `X` of `forward_kinematics`: rotation about x by
`alpha` (with `ca = cos alpha`, `sa = sin alpha`) plus translation `r`
along x. -/
def Xmat (ca sa r : ℚ) : Mat4 :=
  ⟨1, 0, 0, r, 0, ca, -sa, 0, 0, sa, ca, 0, 0, 0, 0, 1⟩

/-- Embedding of `rfs::DHParameters`. -/
structure DHParameters where
  d : ℚ
  alpha : ℚ
  r : ℚ
deriving DecidableEq, Repr

/-- Embedding of `rfs::KinematicChainJoint`: the joint angle plus the two
caches refreshed by every forward-kinematics pass. -/
structure KinematicChainJoint where
  angle : ℚ
  position : Vec3
  z : Vec3
deriving DecidableEq, Repr

instance : Inhabited KinematicChainJoint := ⟨⟨0, default, default⟩⟩

/-- The loop body of `KinematicChain::forward_kinematics`, one joint at a
time (`views::zip` stops at the shorter sequence; joints beyond the zipped
prefix are returned untouched).  `c` and `s` are the cosine and sine
functions (single-precision `cos`/`sin` in the source).  Each joint's
`position` and `z` caches are overwritten with the incoming accumulated
values *before* that joint's own transform is folded in. -/
def fkAux (c s : ℚ → ℚ) :
    List DHParameters → List KinematicChainJoint → Mat4 → Vec3 → Vec3 →
    Vec3 × List KinematicChainJoint
  | [], js, _, pos, _ => (pos, js)
  | _ :: _, [], _, pos, _ => (pos, [])
  | p :: ps, j :: js, T, pos, z =>
    let T2 := T.mul ((Zmat (c j.angle) (s j.angle) p.d).mul
      (Xmat (c p.alpha) (s p.alpha) p.r))
    let pos2 : Vec3 := ⟨T2.m03, T2.m13, T2.m23⟩
    let z2 : Vec3 := ⟨T2.m02, T2.m12, T2.m22⟩
    let rest := fkAux c s ps js T2 pos2 z2
    (rest.1, { j with position := pos, z := z } :: rest.2)

/-- `KinematicChain::forward_kinematics`: returns the end-effector
position and the refreshed joint list (the source mutates `this->joints`
in place; here the updated list is returned). -/
def forward_kinematics (c s : ℚ → ℚ) (parameters : List DHParameters)
    (joints : List KinematicChainJoint) : Vec3 × List KinematicChainJoint :=
  fkAux c s parameters joints Mat4.id ⟨0, 0, 0⟩ ⟨0, 0, 1⟩

/-- The vector `cross(joint.z, ee_pos - joint.position)` that
`KinematicChain::compute_signed_angle` passes to `normalize` as `n1`. -/
def signed_angle_n1_arg (ee_pos : Vec3) (joint : KinematicChainJoint) : Vec3 :=
  Vec3.cross joint.z (Vec3.sub ee_pos joint.position)

/-- The vector `cross(joint.z, target - joint.position)` that
`KinematicChain::compute_signed_angle` passes to `normalize` as `n2`. -/
def signed_angle_n2_arg (target : Vec3) (joint : KinematicChainJoint) : Vec3 :=
  Vec3.cross joint.z (Vec3.sub target joint.position)

/-- One corrective pass of `KinematicChain::inverse_kinematics`: visit the
joints at the given indices (the source iterates `rbegin()`..`rend()`, i.e.
from the joint nearest the end-effector back to the base), add the signed
correction to each joint's angle, and re-run forward kinematics after every
single joint update.  `corr` abstracts `compute_signed_angle`, whose
`normalize`/`acos` arithmetic is real-valued. -/
def ikVisit (c s : ℚ → ℚ)
    (corr : Vec3 → Vec3 → KinematicChainJoint → ℚ)
    (parameters : List DHParameters) (target : Vec3) :
    List Nat → Vec3 → List KinematicChainJoint →
    Vec3 × List KinematicChainJoint
  | [], ee_pos, js => (ee_pos, js)
  | i :: rest, ee_pos, js =>
    let j := js.getD i default
    let js2 := js.set i { j with angle := j.angle + corr ee_pos target j }
    let r := forward_kinematics c s parameters js2
    ikVisit c s corr parameters target rest r.1 r.2

/-- The `while` loop of `KinematicChain::inverse_kinematics`, with the
remaining iteration budget as fuel.  `far ee target` abstracts the
real-valued guard `distance(ee_pos, target) > max_error`.  Returns the
final joint list and the number of corrective passes executed. -/
def ikLoop (c s : ℚ → ℚ) (corr : Vec3 → Vec3 → KinematicChainJoint → ℚ)
    (far : Vec3 → Vec3 → Bool) (parameters : List DHParameters)
    (target : Vec3) :
    Nat → Vec3 → List KinematicChainJoint → List KinematicChainJoint × Nat
  | 0, _, js => (js, 0)
  | Nat.succ fuel, ee_pos, js =>
    if far ee_pos target then
      let r := ikVisit c s corr parameters target
        (List.range js.length).reverse ee_pos js
      let rec2 := ikLoop c s corr far parameters target fuel r.1 r.2
      (rec2.1, rec2.2 + 1)
    else
      (js, 0)

/-- `KinematicChain::inverse_kinematics`: one initial forward-kinematics
pass, then up to `max_iterations` corrective passes.  Returns the final
joint list and the number of passes executed. -/
def inverse_kinematics (c s : ℚ → ℚ)
    (corr : Vec3 → Vec3 → KinematicChainJoint → ℚ)
    (far : Vec3 → Vec3 → Bool) (parameters : List DHParameters)
    (joints : List KinematicChainJoint) (target : Vec3)
    (max_iterations : Nat) : List KinematicChainJoint × Nat :=
  let r := forward_kinematics c s parameters joints
  ikLoop c s corr far parameters target max_iterations r.1 r.2

/-- A bus whose registers all read zero, used as a concrete device state. -/
def zero_bus : Bus := ⟨fun _ => 0, []⟩

/-- A concrete device state whose MODE2 register has the invert bit set. -/
def c3_bus : Bus := ⟨fun r => if r = 1 then 0x10 else 0, []⟩

/-- A concrete device state whose register 4 holds `0xE8`, the power-up
value of SUBADDRESS_3. -/
def c4_bus : Bus := ⟨fun r => if r = 4 then 0xE8 else 0, []⟩

/-- A concrete device state whose prescale register holds 30 (a frequency
of about 197 Hz, not 50 Hz). -/
def c1_bus : Bus := ⟨fun r => if r = 254 then 30 else 0, []⟩

/-- A servo with default calibration whose owned `Pca9685Pwm` channel is
bound to a live driver. -/
def c1_servo : Servo := ⟨⟨0, 0, 0, true⟩, 1 / 40, 3 / 40⟩

end Rfs

namespace Rfs

/-! ## Helper lemmas -/

/-- Re-running `fkAux` on the joint list it itself produced (same matrices,
same start position/axis) changes nothing: the caches are overwritten with
the same values and the angles were never touched. -/
theorem fkAux_refresh_stable (c s : ℚ → ℚ) :
    ∀ (ps : List DHParameters) (js : List KinematicChainJoint) (T : Mat4)
      (pos z : Vec3),
    fkAux c s ps (fkAux c s ps js T pos z).2 T pos z =
      fkAux c s ps js T pos z := by
  intro ps
  induction ps with
  | nil => intro js T pos z; rfl
  | cons p ps ih =>
    intro js T pos z
    cases js with
    | nil => rfl
    | cons j js =>
      simp only [fkAux]
      rw [ih]

/-- The pass counter returned by `ikLoop` never exceeds the fuel. -/
theorem ikLoop_pass_bound (c s : ℚ → ℚ)
    (corr : Vec3 → Vec3 → KinematicChainJoint → ℚ) (far : Vec3 → Vec3 → Bool)
    (parameters : List DHParameters) (target : Vec3) :
    ∀ (fuel : Nat) (ee_pos : Vec3) (js : List KinematicChainJoint),
    (ikLoop c s corr far parameters target fuel ee_pos js).2 ≤ fuel := by
  intro fuel
  induction fuel with
  | zero => intro ee_pos js; simp [ikLoop]
  | succ n ih =>
    intro ee_pos js
    simp only [ikLoop]
    split
    · exact Nat.succ_le_succ (ih _ _)
    · exact Nat.zero_le _

/-- `tick_of` at one half: 2048 whole ticks, no rounding loss. -/
theorem tick_of_half : Pca9685.tick_of (1 / 2) = 2048 := by
  norm_num [Pca9685.tick_of, Pca9685.COUNTER_TICKS]
  rfl

/-- `tick_of` at three quarters: 3072 whole ticks, no rounding loss. -/
theorem tick_of_three_quarters : Pca9685.tick_of (3 / 4) = 3072 := by
  norm_num [Pca9685.tick_of, Pca9685.COUNTER_TICKS]
  rfl

/-- `tick_of` at one tenth truncates 409.6 to 409. -/
theorem tick_of_tenth : Pca9685.tick_of (1 / 10) = 409 := by
  norm_num [Pca9685.tick_of, Pca9685.COUNTER_TICKS]
  rfl

/-- On a valid channel with both fractions in range and distinct quantized
ticks, `set_on_off_times` issues exactly one 4-byte block write of the
packed tick counts. -/
theorem set_on_off_times_valid (b : Bus) (channel : Nat)
    (hc : Pca9685.channel_exists channel = true) (ton toff : ℚ)
    (h1 : 0 ≤ ton) (h2 : ton ≤ 1) (h3 : 0 ≤ toff) (h4 : toff ≤ 1)
    (hne : Pca9685.tick_of ton ≠ Pca9685.tick_of toff) :
    Pca9685.set_on_off_times b channel ton toff =
      (Except.ok (), Pca9685.write_block b (channel * 4 + 6)
        [Pca9685.tick_of ton &&& 0xff, (Pca9685.tick_of ton >>> 8) &&& 0x0f,
         Pca9685.tick_of toff &&& 0xff,
         (Pca9685.tick_of toff >>> 8) &&& 0x0f]) := by
  rw [Pca9685.set_on_off_times]
  rw [if_neg (by simp [hc]), if_neg (by push_neg; exact ⟨h1, h2⟩),
    if_neg (by push_neg; exact ⟨h3, h4⟩), if_neg hne]
  rfl

/-- Reading back the 4-byte block just written returns the written bytes. -/
theorem read_block_write_block_same (b : Bus) (reg : Nat) (d0 d1 d2 d3 : Nat) :
    (Pca9685.read_block (Pca9685.write_block b reg [d0, d1, d2, d3]) reg 4).1 =
      [d0, d1, d2, d3] := by
  simp [Pca9685.read_block, Pca9685.write_block, List.range_succ,
    Nat.add_sub_cancel_left, Nat.sub_self]

/-- Unpacking `on_off_times` after a 4-byte block write of the same
channel's registers. -/
theorem on_off_times_after_write_block (b : Bus) (channel : Nat)
    (hc : Pca9685.channel_exists channel = true) (d0 d1 d2 d3 : Nat) :
    (Pca9685.on_off_times
      (Pca9685.write_block b (channel * 4 + 6) [d0, d1, d2, d3]) channel).1 =
    Except.ok
      { on_time := ((((d1 &&& 0x0f) <<< 8) ||| d0 : ℕ) : ℚ) / 4096,
        off_time := ((((d3 &&& 0x0f) <<< 8) ||| d2 : ℕ) : ℚ) / 4096,
        always_on := d1 &&& 0x10 != 0,
        always_off := d3 &&& 0x10 != 0 } := by
  simp only [Pca9685.on_off_times, Pca9685.NUM_REGISTERS_PER_CHANNEL,
    Pca9685.CHANNELS_REGISTERS_OFFSET, Pca9685.COUNTER_TICKS,
    Pca9685.LED_ON_MASK, Pca9685.LED_OFF_MASK, hc]
  rw [if_neg (by simp)]
  rw [read_block_write_block_same]
  simp [List.getD]

/-- The exact prescale for 50 Hz at the 25 MHz internal clock is 121. -/
theorem prescale_of_50_25mhz : Pca9685.prescale_of 50 25000000 = 121 := by
  norm_num [Pca9685.prescale_of, Pca9685.roundf, Pca9685.COUNTER_TICKS]

/-- The exact prescale for 2000 Hz at 25 MHz is 2, below the chip minimum. -/
theorem prescale_of_2000_25mhz : Pca9685.prescale_of 2000 25000000 = 2 := by
  norm_num [Pca9685.prescale_of, Pca9685.roundf, Pca9685.COUNTER_TICKS]

/-- A frequency whose exact prescale falls outside `[3, 255]` is rejected
with `EINVAL` before any bus transaction. -/
theorem set_frequency_out_of_range_eq (b : Bus) (f clk : ℚ) (hf : 0 < f)
    (hclk : 0 ≤ clk)
    (hout : Pca9685.prescale_of f clk < 3 ∨ 255 < Pca9685.prescale_of f clk) :
    Pca9685.set_frequency b f clk =
      (Except.error ⟨EINVAL, some "prescale value out of range"⟩, b) := by
  simp only [Pca9685.set_frequency, Pca9685.MIN_PRESCALE, Pca9685.MAX_PRESCALE]
  rw [if_neg (not_le.mpr hf), if_neg (not_lt.mpr hclk),
    if_pos (by exact_mod_cast hout)]

/-- `set_frequency(50, 25 MHz)` succeeds and leaves 121 in the prescale
register, whatever the restart flag said. -/
theorem set_frequency_50_ok (b : Bus) :
    (Pca9685.set_frequency b 50 25000000).1 = Except.ok () ∧
    (Pca9685.set_frequency b 50 25000000).2.regs Pca9685.PRESCALE_REGISTER
      = 121 := by
  simp only [Pca9685.set_frequency, prescale_of_50_25mhz, Pca9685.MIN_PRESCALE,
    Pca9685.MAX_PRESCALE]
  rw [if_neg (by norm_num), if_neg (by norm_num), if_neg (by norm_num)]
  constructor
  · rfl
  · simp [Pca9685.restart, Pca9685.needs_restart, Pca9685.get_bool,
      Pca9685.set_bool, Pca9685.sleep, Pca9685.read_register,
      Pca9685.write_register, Pca9685.MODE1_REGISTER, Pca9685.PRESCALE_REGISTER,
      Pca9685.MODE1_SLEEP_MASK, Pca9685.MODE1_RESTART_MASK]
    split <;> simp

end Rfs

namespace Rfs

/-! ## Claim theorems -/

/-- Claim C1 (counterexample): with the owned `Pca9685Pwm` bound to a live
driver whose prescale register holds 30, `Servo::init()` returns success
while the prescale register still holds 30, not the value 121 that
corresponds to 50 Hz — so the claim that `init()` sets the chip-wide PWM
frequency to 50 Hz is false on the code. -/
theorem servo_init_prescale_counterexample :
    (c1_servo.init c1_bus).1 = Except.ok () ∧
    Pca9685.prescale_of Servo.SERVO_FREQUENCY Pca9685.INTERNAL_CLOCK_FREQUENCY
      = 121 ∧
    (c1_servo.init c1_bus).2.2.regs Pca9685.PRESCALE_REGISTER = 30 ∧
    (30 : Nat) ≠ 121 := by
  refine ⟨rfl, ?_, rfl, by decide⟩
  norm_num [Pca9685.prescale_of, Pca9685.roundf, Pca9685.COUNTER_TICKS,
    Servo.SERVO_FREQUENCY, Pca9685.INTERNAL_CLOCK_FREQUENCY]

/-- Claim C1 (amended): `Servo::init()` forwards `set_frequency(50)` to the
owned channel, and `Pca9685Pwm::set_frequency` is a no-op, so `init()`
always returns success and leaves the servo, the chip registers and the bus
trace entirely unchanged — in particular the prescale register keeps
whatever value it had. -/
theorem servo_init_noop (s : Servo) (b : Bus) :
    s.init b = (Except.ok (), s, b) := by
  rfl

/-- Claim C2 (code bug evidence): for the one-joint chain with DH
parameters `d = 1, alpha = 0, r = 0` at angle 0, forward kinematics places
the end-effector at `(0,0,1)` on the joint's own rotation axis (origin
`(0,0,0)`, axis `(0,0,1)`), whatever the trigonometric functions are, and
the target `(0,0,2)` lies on the same axis; both cross products that
`compute_signed_angle` passes to `normalize` are then the zero vector.
The source applies `normalize`/`acos` to them unconditionally — there is no
near-zero check and no skip — so the NaN from normalizing a zero vector is
added to the joint angle instead of the correction being skipped. -/
theorem ik_on_axis_cross_degenerates (c s : ℚ → ℚ) :
    signed_angle_n1_arg
      (forward_kinematics c s [⟨1, 0, 0⟩] [⟨0, ⟨9, 9, 9⟩, ⟨9, 9, 9⟩⟩]).1
      ((forward_kinematics c s [⟨1, 0, 0⟩]
        [⟨0, ⟨9, 9, 9⟩, ⟨9, 9, 9⟩⟩]).2.getD 0 default) = ⟨0, 0, 0⟩ ∧
    signed_angle_n2_arg ⟨0, 0, 2⟩
      ((forward_kinematics c s [⟨1, 0, 0⟩]
        [⟨0, ⟨9, 9, 9⟩, ⟨9, 9, 9⟩⟩]).2.getD 0 default) = ⟨0, 0, 0⟩ := by
  simp [forward_kinematics, fkAux, Mat4.mul, Mat4.id, Zmat, Xmat,
    signed_angle_n1_arg, signed_angle_n2_arg, Vec3.cross, Vec3.sub]

/-- Claim C3 (code bug evidence): `set_output_disabled_mode` is not a
masked read-modify-write.  Starting from MODE2 = 0x10 (invert bit set),
requesting high-impedance mode (value 2) leaves MODE2 = 2: the
output-disabled bits are set, but the invert bit has been cleared instead
of retained, because `set_bits` ignores its mask and writes the raw value
over the whole register. -/
theorem set_output_disabled_mode_clobbers :
    c3_bus.regs Pca9685.MODE2_REGISTER &&& Pca9685.MODE2_INVRT_MASK = 0x10 ∧
    (Pca9685.set_output_disabled_mode c3_bus
        Pca9685.OutputDisabledMode.HighImpedance).regs Pca9685.MODE2_REGISTER
      = 2 ∧
    (Pca9685.set_output_disabled_mode c3_bus
        Pca9685.OutputDisabledMode.HighImpedance).regs Pca9685.MODE2_REGISTER
      &&& Pca9685.MODE2_INVRT_MASK = 0 := by
  refine ⟨rfl, rfl, rfl⟩

/-- Claim C4 (code bug evidence): the all-call address and SUBADDRESS_3 are
the same register in this driver (`ALLCALL_REGISTER = SUB3_REGISTER = 4`,
where the chip's ALLCALLADR is really register 5).  Writing the all-call
address overwrites what `subaddress3()` returns, and writing SUBADDRESS_3
overwrites what `all_call_address()` returns, contradicting the claim that
the two are distinct and unaffected by each other. -/
theorem all_call_aliases_subaddress3 :
    Pca9685.ALLCALL_REGISTER = Pca9685.SUB3_REGISTER ∧
    (Pca9685.subaddress3 c4_bus).1 = 0xE8 ∧
    (Pca9685.subaddress3 (Pca9685.set_all_call_address c4_bus 0x10)).1
      = 0x10 ∧
    (Pca9685.all_call_address (Pca9685.set_subaddress3 c4_bus 0x20)).1
      = 0x20 := by
  refine ⟨rfl, rfl, rfl, rfl⟩

/-- Claim C5: for every individual channel `c < 16` and every prior device
state, `set_on_off_times(c, 1/2, 3/4)` succeeds and a following
`on_off_times(c)` returns exactly on = 1/2 and off = 3/4 (ticks 2048 and
3072 of 4096, both flags clear): the round-trip through the 12-bit
registers is lossless. -/
theorem pwm_on_off_round_trip (channel : Nat) (hc : channel < 16) (b : Bus) :
    (Pca9685.set_on_off_times b channel (1 / 2) (3 / 4)).1 = Except.ok () ∧
    (Pca9685.on_off_times
      (Pca9685.set_on_off_times b channel (1 / 2) (3 / 4)).2 channel).1 =
      Except.ok ⟨1 / 2, 3 / 4, false, false⟩ := by
  have hch : Pca9685.channel_exists channel = true := by
    simp [Pca9685.channel_exists, Pca9685.CHANNELS_COUNT]
    omega
  have hset := set_on_off_times_valid b channel hch (1 / 2) (3 / 4)
    (by norm_num) (by norm_num) (by norm_num) (by norm_num)
    (by rw [tick_of_half, tick_of_three_quarters]; decide)
  rw [tick_of_half, tick_of_three_quarters] at hset
  have e1 : 2048 &&& 0xff = 0 := by decide
  have e2 : (2048 >>> 8) &&& 0x0f = 8 := by decide
  have e3 : 3072 &&& 0xff = 0 := by decide
  have e4 : (3072 >>> 8) &&& 0x0f = 12 := by decide
  rw [e1, e2, e3, e4] at hset
  refine ⟨by rw [hset], ?_⟩
  rw [hset]
  rw [on_off_times_after_write_block b channel hch 0 8 0 12]
  have f1 : ((8 &&& 0x0f) <<< 8) ||| 0 = 2048 := by decide
  have f2 : ((12 &&& 0x0f) <<< 8) ||| 0 = 3072 := by decide
  have f3 : (8 &&& 0x10 != 0) = false := by decide
  have f4 : (12 &&& 0x10 != 0) = false := by decide
  rw [f1, f2, f3, f4]
  norm_num

/-- Witness for C5 at channel 3 on an all-zero device state. -/
theorem pwm_on_off_round_trip_witness :
    (Pca9685.set_on_off_times zero_bus 3 (1 / 2) (3 / 4)).1 = Except.ok () ∧
    (Pca9685.on_off_times
      (Pca9685.set_on_off_times zero_bus 3 (1 / 2) (3 / 4)).2 3).1 =
      Except.ok ⟨1 / 2, 3 / 4, false, false⟩ :=
  ⟨(pwm_on_off_round_trip 3 (by norm_num) zero_bus).1,
   (pwm_on_off_round_trip 3 (by norm_num) zero_bus).2⟩

/-- Claim C6: the prescale is computed by exact arithmetic as
`round(clock_frequency / (4096 × frequency)) − 1` (`prescale_of`); in
particular `set_frequency(50, 25000000)` succeeds and writes 121 to the
prescale register, and every frequency whose computed prescale falls
outside `[3, 255]` is rejected with an `EINVAL` validation error, leaving
the device untouched. -/
theorem set_frequency_prescale_spec :
    Pca9685.prescale_of 50 25000000 = 121 ∧
    (∀ b : Bus,
      (Pca9685.set_frequency b 50 25000000).1 = Except.ok () ∧
      (Pca9685.set_frequency b 50 25000000).2.regs Pca9685.PRESCALE_REGISTER
        = 121) ∧
    (∀ (b : Bus) (f clk : ℚ), 0 < f → 0 ≤ clk →
      Pca9685.prescale_of f clk < 3 ∨ 255 < Pca9685.prescale_of f clk →
      Pca9685.set_frequency b f clk =
        (Except.error ⟨EINVAL, some "prescale value out of range"⟩, b)) :=
  ⟨prescale_of_50_25mhz, set_frequency_50_ok, set_frequency_out_of_range_eq⟩

/-- Witness for C6: 50 Hz accepted (prescale 121) and 2000 Hz rejected
(prescale 2 < 3), on an all-zero device state. -/
theorem set_frequency_prescale_spec_witness :
    (Pca9685.set_frequency zero_bus 50 25000000).1 = Except.ok () ∧
    (Pca9685.set_frequency zero_bus 50 25000000).2.regs
      Pca9685.PRESCALE_REGISTER = 121 ∧
    Pca9685.set_frequency zero_bus 2000 25000000 =
      (Except.error ⟨EINVAL, some "prescale value out of range"⟩, zero_bus) :=
  ⟨(set_frequency_prescale_spec.2.1 zero_bus).1,
   (set_frequency_prescale_spec.2.1 zero_bus).2,
   set_frequency_prescale_spec.2.2 zero_bus 2000 25000000 (by norm_num)
     (by norm_num) (Or.inl (by rw [prescale_of_2000_25mhz]; decide))⟩

/-- Claim C7: every parameter-validation failure is raised before any bus
transaction and leaves the device untouched (same registers, same
transaction trace): equal quantized ticks (`0.1, 0.1` on any channel),
channel 16 out of range, frequency 0, clock −1, and any frequency whose
prescale falls outside `[3, 255]` — each returns an `EINVAL` error with the
device state returned exactly as it was. -/
theorem validation_before_bus :
    (∀ (b : Bus) (channel : Nat),
      (∃ e, (Pca9685.set_on_off_times b channel (1 / 10) (1 / 10)).1 =
        Except.error e ∧ e.code = EINVAL) ∧
      (Pca9685.set_on_off_times b channel (1 / 10) (1 / 10)).2 = b) ∧
    (∀ b : Bus,
      (∃ e, (Pca9685.set_on_off_times b 16 (1 / 2) (3 / 4)).1 =
        Except.error e ∧ e.code = EINVAL) ∧
      (Pca9685.set_on_off_times b 16 (1 / 2) (3 / 4)).2 = b) ∧
    (∀ (b : Bus) (clk : ℚ),
      (∃ e, (Pca9685.set_frequency b 0 clk).1 = Except.error e ∧
        e.code = EINVAL) ∧
      (Pca9685.set_frequency b 0 clk).2 = b) ∧
    (∀ (b : Bus) (f : ℚ),
      (∃ e, (Pca9685.set_frequency b f (-1)).1 = Except.error e ∧
        e.code = EINVAL) ∧
      (Pca9685.set_frequency b f (-1)).2 = b) ∧
    (∀ (b : Bus) (f clk : ℚ), 0 < f → 0 ≤ clk →
      Pca9685.prescale_of f clk < 3 ∨ 255 < Pca9685.prescale_of f clk →
      (∃ e, (Pca9685.set_frequency b f clk).1 = Except.error e ∧
        e.code = EINVAL) ∧
      (Pca9685.set_frequency b f clk).2 = b) := by
  refine ⟨?_, ?_, ?_, ?_, ?_⟩
  · intro b channel
    by_cases hch : Pca9685.channel_exists channel = true
    · have hs : Pca9685.set_on_off_times b channel (1 / 10) (1 / 10) =
          (Except.error
            ⟨EINVAL, some "on_time and off_time must have different values"⟩,
           b) := by
        simp only [Pca9685.set_on_off_times]
        rw [if_neg (by simp [hch]), if_neg (by norm_num),
          if_neg (by norm_num)]
        simp
      exact ⟨⟨_, by rw [hs], rfl⟩, by rw [hs]⟩
    · have hs : Pca9685.set_on_off_times b channel (1 / 10) (1 / 10) =
          (Except.error ⟨EINVAL, some "channel"⟩, b) := by
        simp only [Pca9685.set_on_off_times]
        rw [if_pos hch]
      exact ⟨⟨_, by rw [hs], rfl⟩, by rw [hs]⟩
  · intro b
    have hs : Pca9685.set_on_off_times b 16 (1 / 2) (3 / 4) =
        (Except.error ⟨EINVAL, some "channel"⟩, b) := by
      simp only [Pca9685.set_on_off_times]
      rw [if_pos (by decide)]
    exact ⟨⟨_, by rw [hs], rfl⟩, by rw [hs]⟩
  · intro b clk
    have hs : Pca9685.set_frequency b 0 clk =
        (Except.error ⟨EINVAL, some "frequency"⟩, b) := by
      simp only [Pca9685.set_frequency]
      rw [if_pos (by norm_num)]
    exact ⟨⟨_, by rw [hs], rfl⟩, by rw [hs]⟩
  · intro b f
    by_cases hf : f ≤ 0
    · have hs : Pca9685.set_frequency b f (-1) =
          (Except.error ⟨EINVAL, some "frequency"⟩, b) := by
        simp only [Pca9685.set_frequency]
        rw [if_pos hf]
      exact ⟨⟨_, by rw [hs], rfl⟩, by rw [hs]⟩
    · have hs : Pca9685.set_frequency b f (-1) =
          (Except.error ⟨EINVAL, some "clock_frequency"⟩, b) := by
        simp only [Pca9685.set_frequency]
        rw [if_neg hf, if_pos (by norm_num)]
      exact ⟨⟨_, by rw [hs], rfl⟩, by rw [hs]⟩
  · intro b f clk hf hclk hout
    have hs := set_frequency_out_of_range_eq b f clk hf hclk hout
    exact ⟨⟨_, by rw [hs], rfl⟩, by rw [hs]⟩

/-- Witness for C7: each rejected call instantiated on an all-zero device
state (channel 0 with equal ticks; channel 16; frequency 0; clock −1;
frequency 2000 whose prescale 2 is below the minimum 3). -/
theorem validation_before_bus_witness :
    ((∃ e, (Pca9685.set_on_off_times zero_bus 0 (1 / 10) (1 / 10)).1 =
        Except.error e ∧ e.code = EINVAL) ∧
      (Pca9685.set_on_off_times zero_bus 0 (1 / 10) (1 / 10)).2 = zero_bus) ∧
    ((∃ e, (Pca9685.set_on_off_times zero_bus 16 (1 / 2) (3 / 4)).1 =
        Except.error e ∧ e.code = EINVAL) ∧
      (Pca9685.set_on_off_times zero_bus 16 (1 / 2) (3 / 4)).2 = zero_bus) ∧
    ((∃ e, (Pca9685.set_frequency zero_bus 0 25000000).1 = Except.error e ∧
        e.code = EINVAL) ∧
      (Pca9685.set_frequency zero_bus 0 25000000).2 = zero_bus) ∧
    ((∃ e, (Pca9685.set_frequency zero_bus 50 (-1)).1 = Except.error e ∧
        e.code = EINVAL) ∧
      (Pca9685.set_frequency zero_bus 50 (-1)).2 = zero_bus) ∧
    ((∃ e, (Pca9685.set_frequency zero_bus 2000 25000000).1 =
        Except.error e ∧ e.code = EINVAL) ∧
      (Pca9685.set_frequency zero_bus 2000 25000000).2 = zero_bus) :=
  ⟨validation_before_bus.1 zero_bus 0,
   validation_before_bus.2.1 zero_bus,
   validation_before_bus.2.2.1 zero_bus 25000000,
   validation_before_bus.2.2.2.1 zero_bus 50,
   validation_before_bus.2.2.2.2 zero_bus 2000 25000000 (by norm_num)
     (by norm_num) (Or.inl (by rw [prescale_of_2000_25mhz]; decide))⟩

/-- Claim C8: for every chain, target, iteration cap and guard/correction
functions, `inverse_kinematics` performs at most `max_iterations`
corrective passes over the joints (each pass visiting every joint once from
the end-effector back to the base) — it returns even when the target is
unreachable, i.e. when the guard never becomes false. -/
theorem inverse_kinematics_pass_bound (c s : ℚ → ℚ)
    (corr : Vec3 → Vec3 → KinematicChainJoint → ℚ) (far : Vec3 → Vec3 → Bool)
    (parameters : List DHParameters) (joints : List KinematicChainJoint)
    (target : Vec3) (max_iterations : Nat) :
    (inverse_kinematics c s corr far parameters joints target
      max_iterations).2 ≤ max_iterations := by
  unfold inverse_kinematics
  exact ikLoop_pass_bound c s corr far parameters target max_iterations _ _

/-- Claim C9: `forward_kinematics` is deterministic and drift-free: running
it a second time on the joint state it itself produced (no angle mutation
in between) returns the same end-effector position and leaves the cached
per-joint origins and axes identical. -/
theorem forward_kinematics_deterministic (c s : ℚ → ℚ)
    (parameters : List DHParameters) (joints : List KinematicChainJoint) :
    forward_kinematics c s parameters
      (forward_kinematics c s parameters joints).2 =
    forward_kinematics c s parameters joints := by
  unfold forward_kinematics
  exact fkAux_refresh_stable c s parameters joints Mat4.id ⟨0, 0, 0⟩ ⟨0, 0, 1⟩

/-- Claim C10: on a live handle, a duty cycle whose quantized window spans
no tick — `tick_of phase = tick_of (phase + duty)`, in particular duty 0 —
is rejected by `set_duty_cycle` with an `EINVAL` validation error and the
device state (registers and transaction trace) is returned unchanged. -/
theorem set_duty_cycle_subtick_rejected (h : Pca9685Pwm) (b : Bus) (d : ℚ)
    (hlive : h.live = true) (hp0 : 0 ≤ h.phase) (hp1 : h.phase ≤ 1)
    (hq0 : 0 ≤ h.phase + d) (hq1 : h.phase + d ≤ 1)
    (heq : Pca9685.tick_of h.phase = Pca9685.tick_of (h.phase + d)) :
    (∃ e, (h.set_duty_cycle b d).1 = Except.error e ∧ e.code = EINVAL) ∧
    (h.set_duty_cycle b d).2.2 = b := by
  have hfwd : h.set_duty_cycle b d =
      ((Pca9685.set_on_off_times b h.channel h.phase (h.phase + d)).1,
       { h with duty_cycle := d },
       (Pca9685.set_on_off_times b h.channel h.phase (h.phase + d)).2) := by
    simp [Pca9685Pwm.set_duty_cycle, hlive]
  by_cases hch : Pca9685.channel_exists h.channel = true
  · have hs : Pca9685.set_on_off_times b h.channel h.phase (h.phase + d) =
        (Except.error
          ⟨EINVAL, some "on_time and off_time must have different values"⟩,
         b) := by
      simp only [Pca9685.set_on_off_times]
      rw [if_neg (by simp [hch]), if_neg (by push_neg; exact ⟨hp0, hp1⟩),
        if_neg (by push_neg; exact ⟨hq0, hq1⟩), if_pos heq]
    rw [hfwd, hs]
    exact ⟨⟨_, rfl, rfl⟩, rfl⟩
  · have hs : Pca9685.set_on_off_times b h.channel h.phase (h.phase + d) =
        (Except.error ⟨EINVAL, some "channel"⟩, b) := by
      simp only [Pca9685.set_on_off_times]
      rw [if_pos hch]
    rw [hfwd, hs]
    exact ⟨⟨_, rfl, rfl⟩, rfl⟩

/-- Witness for C10: a live handle on channel 0 with phase 1/4 and duty
cycle 0, on an all-zero device state. -/
theorem set_duty_cycle_subtick_rejected_witness :
    (∃ e, (Pca9685Pwm.set_duty_cycle ⟨0, 1 / 4, 0, true⟩ zero_bus 0).1 =
      Except.error e ∧ e.code = EINVAL) ∧
    (Pca9685Pwm.set_duty_cycle ⟨0, 1 / 4, 0, true⟩ zero_bus 0).2.2 =
      zero_bus :=
  set_duty_cycle_subtick_rejected ⟨0, 1 / 4, 0, true⟩ zero_bus 0 rfl
    (by norm_num) (by norm_num) (by norm_num) (by norm_num) (by norm_num)

end Rfs
